import Mathlib

/-!
Verification of the MSD Risk Survey demo's scoring core (`app.py`).

Numeric values are modelled as exact rationals (`ℚ`); decimal literals
such as `1.15` denote the exact rational `23/20`.  `np.interp` is
modelled by `interp` below (piecewise-linear interpolation over a
strictly increasing breakpoint table, with flat extrapolation on both
sides), `np.clip` by `clip`, and Python dict `.get(key, 1.0)` lookups by
if-chains with the same default.
-/

/-- Recognized postures (`POSTURES` in `app.py`). -/
def POSTURES : List String := ["neutral", "bending", "twisting", "reaching"]

/-- Recognized lift heights (`LIFT_HEIGHTS` in `app.py`). -/
def LIFT_HEIGHTS : List String := ["floor", "knee", "waist", "shoulder"]

/-- Recognized floor surfaces (`SURFACES` in `app.py`). -/
def SURFACES : List String := ["smooth", "rough"]

/-- Recognized neck/shoulder awkwardness levels (`NECK_SHOULDER` in `app.py`). -/
def NECK_SHOULDER : List String := ["none", "mild", "severe"]

/-- The fixed column order of the record schema (`COLUMNS` in `app.py`). -/
def COLUMNS : List String :=
  ["timestamp", "tool", "task_name", "duration_min", "frequency_per_hr", "posture",
   "load_kg", "lift_height", "push_pull_force_kg", "distance_m", "surface",
   "reps_per_min", "cycle_time_sec", "neck_shoulder_awk", "risk_score", "risk_tier"]

/-- Threshold configuration (`DEFAULT_THRESHOLDS`-shaped dict in `app.py`). -/
structure Thresholds where
  high : ℚ
  med_high : ℚ
  med : ℚ
  deriving DecidableEq

/-- The default thresholds `{"high": 70, "med_high": 50, "med": 35}`. -/
def DEFAULT_THRESHOLDS : Thresholds := { high := 70, med_high := 50, med := 35 }

/-- Model of `np.interp q xp fp` over a table of `(x, y)` pairs with strictly
increasing `x`: flat extrapolation below the first and above the last
breakpoint, linear interpolation between consecutive breakpoints. -/
def interp (q : ℚ) : List (ℚ × ℚ) → ℚ
  | [] => 0
  | [(_, y)] => y
  | (x1, y1) :: (x2, y2) :: rest =>
      if q ≤ x1 then y1
      else if q ≤ x2 then y1 + (q - x1) * (y2 - y1) / (x2 - x1)
      else interp q ((x2, y2) :: rest)

/-- Model of `np.clip a lo hi`: `lo` if `a < lo`, `hi` if `a > hi`, else `a`. -/
def clip (a lo hi : ℚ) : ℚ :=
  if a < lo then lo else if a > hi then hi else a

/-- Function `tier_from_score` from `app.py`: first-match evaluation high to low. -/
def tier_from_score (score : ℚ) (thres : Thresholds) : String :=
  if score ≥ thres.high then "High"
  else if score ≥ thres.med_high then "Med-High"
  else if score ≥ thres.med then "Medium"
  else "Low"

/-- Function `score_nzmac` from `app.py`: simplified lifting assessment. -/
def score_nzmac (load_kg frequency_per_hr : ℚ) (posture lift_height : String) : ℚ :=
  let load_points := interp load_kg [(0, 5), (5, 15), (10, 30), (20, 55), (35, 75)]
  let freq_mult := interp frequency_per_hr [(0, 1.0), (10, 1.1), (30, 1.25), (60, 1.4)]
  let posture_pen :=
    if posture = "neutral" then 1.0
    else if posture = "bending" then 1.15
    else if posture = "twisting" then 1.2
    else if posture = "reaching" then 1.1
    else 1.0
  let height_pen :=
    if lift_height = "floor" then 1.25
    else if lift_height = "knee" then 1.15
    else if lift_height = "waist" then 1.0
    else if lift_height = "shoulder" then 1.2
    else 1.0
  clip (load_points * freq_mult * posture_pen * height_pen) 5 100

/-- Function `score_nzrapp` from `app.py`: simplified pushing/pulling scoring. -/
def score_nzrapp (push_pull_force_kg distance_m : ℚ) (surface : String)
    (frequency_per_hr : ℚ) : ℚ :=
  let force_points := interp push_pull_force_kg [(0, 5), (5, 15), (10, 28), (20, 48), (35, 70)]
  let dist_mult := interp distance_m [(0, 1.0), (10, 1.05), (30, 1.15), (60, 1.25)]
  let surface_pen :=
    if surface = "smooth" then 1.0
    else if surface = "rough" then 1.15
    else 1.0
  let freq_mult := interp frequency_per_hr [(0, 1.0), (10, 1.1), (30, 1.2), (60, 1.3)]
  clip (force_points * dist_mult * surface_pen * freq_mult) 5 100

/-- Function `score_nzart` from `app.py`: simplified repetitive upper limb scoring. -/
def score_nzart (reps_per_min cycle_time_sec : ℚ) (neck_shoulder_awk posture : String) : ℚ :=
  let rep_points := interp reps_per_min [(0, 5), (10, 15), (20, 30), (40, 55), (60, 75)]
  let cycle_adj := interp cycle_time_sec [(5, 1.25), (20, 1.1), (60, 1.0)]
  let neck_pen :=
    if neck_shoulder_awk = "none" then 1.0
    else if neck_shoulder_awk = "mild" then 1.15
    else if neck_shoulder_awk = "severe" then 1.35
    else 1.0
  let posture_pen :=
    if posture = "neutral" then 1.0
    else if posture = "bending" then 1.1
    else if posture = "twisting" then 1.15
    else if posture = "reaching" then 1.2
    else 1.0
  clip (rep_points * cycle_adj * neck_pen * posture_pen) 5 100

/-- Function `recommendations` from `app.py`. -/
def recommendations (tier tool : String) : List String :=
  let base : List String :=
    ["Rotate tasks to reduce exposure time.",
     "Provide micro-breaks and encourage neutral postures.",
     "Train staff on safe techniques and early symptom reporting."]
  let base :=
    if tier = "Med-High" ∨ tier = "High" then
      let base := "Consider engineering controls (lifting aids, height-adjustable benches)." :: base
      let base := if tool = "NZMAC" then
        base ++ ["Reduce load weight or split lifts into smaller units."] else base
      let base := if tool = "NZRAPP" then
        base ++ ["Reduce initial push/pull force and improve wheel/surface condition."] else base
      let base := if tool = "NZART" then
        base ++ ["Redesign tasks to lower repetition rate or awkward neck/shoulder posture."] else base
      base
    else base
  base.take 4

/-- The three tool-specific advisory strings of `recommendations`. -/
def toolSpecificSuggestions : List String :=
  ["Reduce load weight or split lifts into smaller units.",
   "Reduce initial push/pull force and improve wheel/surface condition.",
   "Redesign tasks to lower repetition rate or awkward neck/shoulder posture."]

/-!
Spec-side definitions for the lifting scorer (claim C1).  These follow
the specification's words: `base` is the piecewise-linear interpolation
of `load_kg` over `(0,5,10,20,35) → (5,15,30,55,75)` with flat
extrapolation, written out segment by segment in slope form; `clamp` is
the usual `max lo (min x hi)`.
-/

/-- Spec-side clamp: `clamp(x, lo, hi) = max(lo, min(x, hi))`. -/
def spec_clamp (x lo hi : ℚ) : ℚ := max lo (min x hi)

/-- Spec-side lifting base points: piecewise-linear over
`(0,5,10,20,35) → (5,15,30,55,75)`, flat outside the table. -/
def specLiftBase (load : ℚ) : ℚ :=
  if load ≤ 0 then 5
  else if load ≤ 5 then 5 + 2 * load
  else if load ≤ 10 then 15 + 3 * (load - 5)
  else if load ≤ 20 then 30 + (5 / 2) * (load - 10)
  else if load ≤ 35 then 55 + (4 / 3) * (load - 20)
  else 75

/-- Spec-side lifting frequency multiplier: piecewise-linear over
`(0,10,30,60) → (1.0,1.1,1.25,1.4)`, flat outside the table. -/
def specLiftFreqMult (f : ℚ) : ℚ :=
  if f ≤ 0 then 1
  else if f ≤ 10 then 1 + f / 100
  else if f ≤ 30 then 11 / 10 + (3 / 400) * (f - 10)
  else if f ≤ 60 then 5 / 4 + (f - 30) / 200
  else 7 / 5

/-- Spec-side posture multiplier table
`{neutral:1.0, bending:1.15, twisting:1.2, reaching:1.1}`, default 1.0. -/
def specPostureMult (p : String) : ℚ :=
  match p with
  | "neutral" => 1
  | "bending" => 23 / 20
  | "twisting" => 6 / 5
  | "reaching" => 11 / 10
  | _ => 1

/-- Spec-side lift-height multiplier table
`{floor:1.25, knee:1.15, waist:1.0, shoulder:1.2}`, default 1.0. -/
def specHeightMult (h : String) : ℚ :=
  match h with
  | "floor" => 5 / 4
  | "knee" => 23 / 20
  | "waist" => 1
  | "shoulder" => 6 / 5
  | _ => 1

/-- The source's interpolation over the lifting load table agrees with the
spec's segment-by-segment piecewise-linear description. -/
lemma interp_lift_base (q : ℚ) :
    interp q [(0, 5), (5, 15), (10, 30), (20, 55), (35, 75)] = specLiftBase q := by
  simp only [interp, specLiftBase]
  split_ifs <;> linarith

/-- The source's interpolation over the lifting frequency table agrees with
the spec's segment-by-segment piecewise-linear description. -/
lemma interp_lift_freq (q : ℚ) :
    interp q [(0, 1.0), (10, 1.1), (30, 1.25), (60, 1.4)] = specLiftFreqMult q := by
  simp only [interp, specLiftFreqMult]
  norm_num
  split_ifs <;> linarith

/-- Applying `np.clip` at bounds 5 and 100 coincides with `clamp(a, 5, 100) = max 5 (min a 100)`. -/
lemma clip_eq_clamp (a : ℚ) : clip a 5 100 = spec_clamp a 5 100 := by
  simp only [clip, spec_clamp]
  rcases lt_or_le a 5 with h | h
  · rw [if_pos h, max_eq_left]
    exact le_trans (min_le_left _ _) (le_of_lt h)
  · rw [if_neg (not_lt.mpr h)]
    rcases le_or_lt a 100 with h2 | h2
    · rw [if_neg (not_lt.mpr h2), min_eq_left h2, max_eq_right h]
    · rw [if_pos h2, min_eq_right (le_of_lt h2), max_eq_right]
      norm_num

/-- The result of `clip a 5 100` always lies in `[5, 100]`. -/
lemma clip_mem (a : ℚ) : 5 ≤ clip a 5 100 ∧ clip a 5 100 ≤ 100 := by
  simp only [clip]
  split_ifs <;> constructor <;> linarith

/-- The lifting scorer's posture if-chain agrees with the spec's
multiplier table. -/
lemma posture_pen_eq (p : String) :
    (if p = "neutral" then (1.0 : ℚ)
     else if p = "bending" then 1.15
     else if p = "twisting" then 1.2
     else if p = "reaching" then 1.1
     else 1.0) = specPostureMult p := by
  split_ifs with h1 h2 h3 h4 <;> subst_vars <;> simp only [specPostureMult] <;> norm_num

/-- The lifting scorer's height if-chain agrees with the spec's
multiplier table. -/
lemma height_pen_eq (h : String) :
    (if h = "floor" then (1.25 : ℚ)
     else if h = "knee" then 1.15
     else if h = "waist" then 1.0
     else if h = "shoulder" then 1.2
     else 1.0) = specHeightMult h := by
  split_ifs with h1 h2 h3 h4 <;> subst_vars <;> simp only [specHeightMult] <;> norm_num

/-- C1: for every input `(load_kg, frequency_per_hr, posture, lift_height)`,
the lifting scorer `score_nzmac` returns
`clamp(base * freq_mult * posture_mult * height_mult, 5, 100)`, where `base`
is the piecewise-linear interpolation of `load_kg` over
`(0,5,10,20,35) → (5,15,30,55,75)` with flat extrapolation, `freq_mult` the
interpolation of `frequency_per_hr` over `(0,10,30,60) → (1.0,1.1,1.25,1.4)`,
`posture_mult` the table `{neutral:1.0, bending:1.15, twisting:1.2,
reaching:1.1}` and `height_mult` the table `{floor:1.25, knee:1.15,
waist:1.0, shoulder:1.2}`, both defaulting to 1.0. -/
theorem lifting_score_matches_spec (load f : ℚ) (p h : String) :
    score_nzmac load f p h =
      spec_clamp (specLiftBase load * specLiftFreqMult f *
        specPostureMult p * specHeightMult h) 5 100 := by
  simp only [score_nzmac]
  rw [interp_lift_base, interp_lift_freq, posture_pen_eq, height_pen_eq, clip_eq_clamp]

/-- Rank of a tier label in the order `Low < Medium < Med-High < High`. -/
def tierRank (t : String) : ℕ :=
  if t = "High" then 3
  else if t = "Med-High" then 2
  else if t = "Medium" then 1
  else 0

/-- C2: for every score and every threshold set with
`med ≤ med_high ≤ high`, the classifier returns `High` iff the score
reaches `high`, else `Med-High` when it reaches `med_high`, else `Medium`
when it reaches `med`, else `Low`, boundaries inclusive of the upper
tier; and with the default thresholds, 70 → High, 69.9 → Med-High,
50 → Med-High, 35 → Medium, 34.9 → Low. -/
theorem tier_classifier_characterization (s : ℚ) (t : Thresholds)
    (h1 : t.med ≤ t.med_high) (h2 : t.med_high ≤ t.high) :
    ((t.high ≤ s → tier_from_score s t = "High") ∧
     (t.med_high ≤ s → s < t.high → tier_from_score s t = "Med-High") ∧
     (t.med ≤ s → s < t.med_high → tier_from_score s t = "Medium") ∧
     (s < t.med → tier_from_score s t = "Low")) ∧
    (tier_from_score 70 DEFAULT_THRESHOLDS = "High" ∧
     tier_from_score 69.9 DEFAULT_THRESHOLDS = "Med-High" ∧
     tier_from_score 50 DEFAULT_THRESHOLDS = "Med-High" ∧
     tier_from_score 35 DEFAULT_THRESHOLDS = "Medium" ∧
     tier_from_score 34.9 DEFAULT_THRESHOLDS = "Low") := by
  constructor
  · refine ⟨fun hh => ?_, fun hm hl => ?_, fun hm hl => ?_, fun hl => ?_⟩ <;>
      simp only [tier_from_score] <;> split_ifs <;> first | rfl | linarith
  · norm_num [tier_from_score, DEFAULT_THRESHOLDS]

/-- Witness for C2 at a concrete ordered threshold set and score. -/
theorem tier_classifier_characterization_witness :
    tier_from_score 80 DEFAULT_THRESHOLDS = "High" :=
  (tier_classifier_characterization 80 DEFAULT_THRESHOLDS
    (by norm_num [DEFAULT_THRESHOLDS]) (by norm_num [DEFAULT_THRESHOLDS])).1.1
    (by norm_num [DEFAULT_THRESHOLDS])

/-- C7: for every threshold set (no ordering assumption needed) and
scores `s1 ≤ s2`, the tier of `s1` is at most the tier of `s2` in the
order `Low < Medium < Med-High < High`. -/
theorem tier_from_score_monotone (t : Thresholds) (s1 s2 : ℚ) (h : s1 ≤ s2) :
    tierRank (tier_from_score s1 t) ≤ tierRank (tier_from_score s2 t) := by
  simp only [tier_from_score]
  split_ifs <;> first | linarith | norm_num +decide [tierRank]

/-- Witness for C7 at concrete scores 3 ≤ 80 under the defaults. -/
theorem tier_from_score_monotone_witness :
    tierRank (tier_from_score 3 DEFAULT_THRESHOLDS) ≤
      tierRank (tier_from_score 80 DEFAULT_THRESHOLDS) :=
  tier_from_score_monotone DEFAULT_THRESHOLDS 3 80 (by norm_num)

/-- C10: the tier classifier is total — for every score and every
threshold triple, ordered or not, it returns one of the four labels. -/
theorem tier_from_score_total (s : ℚ) (t : Thresholds) :
    tier_from_score s t = "Low" ∨ tier_from_score s t = "Medium" ∨
    tier_from_score s t = "Med-High" ∨ tier_from_score s t = "High" := by
  simp only [tier_from_score]
  split_ifs <;> simp

/-- C3 counterexample: on the spec's scenario inputs the push/pull scorer
returns 56.925, not ≈42, and the default-threshold tier is not `Medium`. -/
theorem push_pull_scenario_counterexample :
    score_nzrapp 18 25 "smooth" 20 = 56.925 ∧
    tier_from_score (score_nzrapp 18 25 "smooth" 20) DEFAULT_THRESHOLDS ≠ "Medium" := by
  have h : score_nzrapp 18 25 "smooth" 20 = 56.925 := by
    norm_num [score_nzrapp, interp, clip]
  refine ⟨h, ?_⟩
  rw [h]
  norm_num +decide [tier_from_score, DEFAULT_THRESHOLDS]

/-- C3 amended: `score_push_pull(force_kg=18, distance_m=25,
surface="smooth", frequency_per_hr=20)` returns 56.925 (≈57), and
classifying that score with the default thresholds yields `Med-High`. -/
theorem push_pull_scenario_amended :
    score_nzrapp 18 25 "smooth" 20 = 56.925 ∧
    tier_from_score (score_nzrapp 18 25 "smooth" 20) DEFAULT_THRESHOLDS = "Med-High" := by
  have h : score_nzrapp 18 25 "smooth" 20 = 56.925 := by
    norm_num [score_nzrapp, interp, clip]
  refine ⟨h, ?_⟩
  rw [h]
  norm_num +decide [tier_from_score, DEFAULT_THRESHOLDS]

/-- C4: for every input to any of the three scorers — negative, extreme,
out-of-table numeric values and unrecognized categorical values included —
the returned score lies in the closed interval `[5, 100]`. -/
theorem scores_in_range (load f force dist fr reps cyc : ℚ)
    (p h sfc n : String) :
    (5 ≤ score_nzmac load f p h ∧ score_nzmac load f p h ≤ 100) ∧
    (5 ≤ score_nzrapp force dist sfc fr ∧ score_nzrapp force dist sfc fr ≤ 100) ∧
    (5 ≤ score_nzart reps cyc n p ∧ score_nzart reps cyc n p ≤ 100) :=
  ⟨clip_mem _, clip_mem _, clip_mem _⟩

/-- Closed form of `recommendations`: for `Med-High`/`High` tiers the
result is exactly the four general strings (the appended tool-specific
entry always falls past the first-4 truncation); otherwise it is exactly
the three base strings. -/
lemma recommendations_eq (tier tool : String) :
    recommendations tier tool =
      if tier = "Med-High" ∨ tier = "High" then
        ["Consider engineering controls (lifting aids, height-adjustable benches).",
         "Rotate tasks to reduce exposure time.",
         "Provide micro-breaks and encourage neutral postures.",
         "Train staff on safe techniques and early symptom reporting."]
      else
        ["Rotate tasks to reduce exposure time.",
         "Provide micro-breaks and encourage neutral postures.",
         "Train staff on safe techniques and early symptom reporting."] := by
  simp only [recommendations]
  split_ifs <;> rfl

/-- C5: `recommendations` always returns between 1 and 4 advisory
strings, and for tier `Low` the list contains no tool-specific
suggestion. -/
theorem recommendations_bounded (tier tool : String) :
    1 ≤ (recommendations tier tool).length ∧
    (recommendations tier tool).length ≤ 4 ∧
    (tier = "Low" → ∀ s ∈ toolSpecificSuggestions, s ∉ recommendations tier tool) := by
  rw [recommendations_eq]
  split_ifs with hq
  · refine ⟨by norm_num, by norm_num, fun hl => ?_⟩
    subst hl
    simp at hq
  · refine ⟨by norm_num, by norm_num, fun _ s hs => ?_⟩
    simp only [toolSpecificSuggestions, List.mem_cons, List.not_mem_nil, or_false] at hs
    rcases hs with h | h | h <;> subst h <;> decide

/-- Witness for C5 at tier `Low`, tool `NZMAC`. -/
theorem recommendations_bounded_witness :
    "Reduce load weight or split lifts into smaller units." ∉
      recommendations "Low" "NZMAC" :=
  (recommendations_bounded "Low" "NZMAC").2.2 rfl _ (by decide)

/-- C6: no tier/tool combination ever yields a tool-specific suggestion:
for `Med-High`/`High` the result is exactly the four general strings
(the appended tool entry is always cut by the first-4 truncation), else
exactly the three base strings, so the output is independent of the
tool argument. -/
theorem recommendations_tool_independent (tier tool tool2 : String) :
    (recommendations tier tool =
      if tier = "Med-High" ∨ tier = "High" then
        ["Consider engineering controls (lifting aids, height-adjustable benches).",
         "Rotate tasks to reduce exposure time.",
         "Provide micro-breaks and encourage neutral postures.",
         "Train staff on safe techniques and early symptom reporting."]
      else
        ["Rotate tasks to reduce exposure time.",
         "Provide micro-breaks and encourage neutral postures.",
         "Train staff on safe techniques and early symptom reporting."]) ∧
    (∀ s ∈ toolSpecificSuggestions, s ∉ recommendations tier tool) ∧
    recommendations tier tool = recommendations tier tool2 := by
  refine ⟨recommendations_eq tier tool, fun s hs => ?_, ?_⟩
  · rw [recommendations_eq]
    simp only [toolSpecificSuggestions, List.mem_cons, List.not_mem_nil, or_false] at hs
    split_ifs <;> rcases hs with h | h | h <;> subst h <;> decide
  · rw [recommendations_eq, recommendations_eq]

/-- Witness for C6 at tier `High`, tools `NZMAC` and `NZRAPP`. -/
theorem recommendations_tool_independent_witness :
    "Reduce load weight or split lifts into smaller units." ∉
      recommendations "High" "NZMAC" :=
  (recommendations_tool_independent "High" "NZMAC" "NZRAPP").2.1 _ (by decide)

/-- C8: for each scorer and each categorical argument, a value outside
the recognized set yields the same score as the value whose multiplier
is 1.0 (`neutral` for postures, `waist` for lift height, `smooth` for
surface, `none` for neck/shoulder), holding all other arguments fixed. -/
theorem unrecognized_categorical_is_neutral :
    (∀ (load f : ℚ) (p h : String), p ∉ POSTURES →
      score_nzmac load f p h = score_nzmac load f "neutral" h) ∧
    (∀ (load f : ℚ) (p h : String), h ∉ LIFT_HEIGHTS →
      score_nzmac load f p h = score_nzmac load f p "waist") ∧
    (∀ (force dist fr : ℚ) (s : String), s ∉ SURFACES →
      score_nzrapp force dist s fr = score_nzrapp force dist "smooth" fr) ∧
    (∀ (reps cyc : ℚ) (n p : String), n ∉ NECK_SHOULDER →
      score_nzart reps cyc n p = score_nzart reps cyc "none" p) ∧
    (∀ (reps cyc : ℚ) (n p : String), p ∉ POSTURES →
      score_nzart reps cyc n p = score_nzart reps cyc n "neutral") := by
  refine ⟨fun load f p h hp => ?_, fun load f p h hh => ?_, fun force dist fr s hs => ?_,
    fun reps cyc n p hn => ?_, fun reps cyc n p hp => ?_⟩
  · simp only [POSTURES, List.mem_cons, List.not_mem_nil, or_false, not_or] at hp
    obtain ⟨h1, h2, h3, h4⟩ := hp
    simp +decide [score_nzmac, h1, h2, h3, h4]
  · simp only [LIFT_HEIGHTS, List.mem_cons, List.not_mem_nil, or_false, not_or] at hh
    obtain ⟨h1, h2, h3, h4⟩ := hh
    simp +decide [score_nzmac, h1, h2, h3, h4]
  · simp only [SURFACES, List.mem_cons, List.not_mem_nil, or_false, not_or] at hs
    obtain ⟨h1, h2⟩ := hs
    simp +decide [score_nzrapp, h1, h2]
  · simp only [NECK_SHOULDER, List.mem_cons, List.not_mem_nil, or_false, not_or] at hn
    obtain ⟨h1, h2, h3⟩ := hn
    simp +decide [score_nzart, h1, h2, h3]
  · simp only [POSTURES, List.mem_cons, List.not_mem_nil, or_false, not_or] at hp
    obtain ⟨h1, h2, h3, h4⟩ := hp
    simp +decide [score_nzart, h1, h2, h3, h4]

/-- Witness for C8 at concrete unrecognized categorical values. -/
theorem unrecognized_categorical_is_neutral_witness :
    score_nzmac 12 30 "slouching" "knee" = score_nzmac 12 30 "neutral" "knee" ∧
    score_nzmac 12 30 "bending" "overhead" = score_nzmac 12 30 "bending" "waist" ∧
    score_nzrapp 18 25 "gravel" 20 = score_nzrapp 18 25 "smooth" 20 ∧
    score_nzart 28 12 "extreme" "reaching" = score_nzart 28 12 "none" "reaching" ∧
    score_nzart 28 12 "mild" "kneeling" = score_nzart 28 12 "mild" "neutral" :=
  ⟨unrecognized_categorical_is_neutral.1 12 30 "slouching" "knee" (by decide),
   unrecognized_categorical_is_neutral.2.1 12 30 "bending" "overhead" (by decide),
   unrecognized_categorical_is_neutral.2.2.1 18 25 20 "gravel" (by decide),
   unrecognized_categorical_is_neutral.2.2.2.1 28 12 "extreme" "reaching" (by decide),
   unrecognized_categorical_is_neutral.2.2.2.2 28 12 "mild" "kneeling" (by decide)⟩

/-- A parsed tabular row: association list from column name to an
optional (possibly null) cell value. -/
abbrev Row := List (String × Option String)

/-- Cell of a row under a column name; absent columns read as null. -/
def cellOf (r : Row) (c : String) : Option String :=
  match r.lookup c with
  | some v => v
  | none => none

/-- The column alignment performed by the Import page on a successfully
parsed table: every row is normalized to exactly the fixed `COLUMNS`
(in order), filling absent columns with null and dropping columns not
in the schema. -/
def alignColumns (t : List Row) : List Row :=
  t.map (fun r => COLUMNS.map (fun c => (c, cellOf r c)))

/-- The Import page's try/except flow: the CSV parse outcome (the
external `read_csv`, which either yields a table or raises) enters as an
`Except`; on success the aligned table replaces the whole store, on a
parse error the store is left as it was and the error is reported. -/
def importStep (store : List Row) (parsed : Except String (List Row)) :
    List Row × Option String :=
  match parsed with
  | Except.ok t => (alignColumns t, none)
  | Except.error e => (store, some e)

/-- C9: import is all-or-nothing — on any parse error the record store
is exactly unchanged (and the error is the one reported), and on success
the store is wholly replaced by the normalized new table. -/
theorem import_all_or_nothing (store : List Row)
    (parsed : Except String (List Row)) :
    (∀ e, parsed = Except.error e →
      (importStep store parsed).1 = store ∧ (importStep store parsed).2 = some e) ∧
    (∀ t, parsed = Except.ok t →
      (importStep store parsed).1 = alignColumns t ∧ (importStep store parsed).2 = none) := by
  constructor <;> rintro x rfl <;> exact ⟨rfl, rfl⟩

/-- Witness for C9: a failed parse leaves a concrete one-row store
untouched. -/
theorem import_all_or_nothing_witness :
    (importStep [[("tool", some "NZMAC")]] (Except.error "bad csv")).1 =
      [[("tool", some "NZMAC")]] :=
  ((import_all_or_nothing [[("tool", some "NZMAC")]]
    (Except.error "bad csv")).1 "bad csv" rfl).1
